import Mathlib

/-!
Verification development for the documentation/cost-calculator service
(`src/constants.ts`, `src/services/documentation.ts` and friends).

Monetary amounts and pricing multipliers are embedded as exact rationals
(`ℚ`): every constant in the source is a short decimal literal, and all the
arithmetic performed by the code (`+`, `-`, `*`, `/ 1_000_000`, `* 0.5`) is
modelled exactly.  Token counts are natural numbers, as enforced by the
request schema (`z.number().int().min(0)`).  Markdown/JSON text rendering is
abstracted: each operation returns the structured payload from which the
source renders both of its output formats, and the error branches return the
source's error message strings.
-/

/-- Pricing table of one model (`constants.ts`, field `pricing`).
`longContextInput`/`longContextOutput` are optional, mirroring the fields
that are present only on `sonnet_4_5`. -/
structure Pricing where
  input : ℚ
  output : ℚ
  cacheWrite5min : ℚ
  cacheWrite1hr : ℚ
  cacheRead : ℚ
  longContextInput : Option ℚ := none
  longContextOutput : Option ℚ := none
  batchDiscount : String
deriving DecidableEq, Repr

/-- One catalogue entry (`types.ts`, interface `ClaudeModel`). -/
structure ClaudeModel where
  name : String
  apiId : String
  modelAlias : String
  tier : String
  releaseDate : String
  knowledgeCutoff : String
  contextWindow : Nat
  contextWindowExtended : Option Nat := none
  maxOutput : Nat
  pricing : Pricing
  features : List String
deriving DecidableEq, Repr

/-- `CLAUDE_MODELS.opus_4_5` (`constants.ts` lines 16-43). -/
def opus_4_5 : ClaudeModel where
  name := "Claude Opus 4.5"
  apiId := "claude-opus-4-5-20251101"
  modelAlias := "claude-opus-4-5"
  tier := "flagship"
  releaseDate := "2025-11-24"
  knowledgeCutoff := "March 2025"
  contextWindow := 200000
  maxOutput := 64000
  pricing :=
    { input := 5.00, output := 25.00, cacheWrite5min := 6.25, cacheWrite1hr := 10.00
      cacheRead := 0.50, batchDiscount := "50%" }
  features :=
    ["Extended thinking (preserved across turns by default)",
     "Effort parameter (low/medium/high)",
     "Computer use + zoom tool",
     "Context awareness",
     "Vision (images, PDFs, spreadsheets)",
     "Best-in-class coding (80.9% SWE-bench Verified)",
     "Memory tool for persistent state",
     "Context compaction"]

/-- `CLAUDE_MODELS.sonnet_4_5` (`constants.ts` lines 45-74); the only model
with long-context prices. -/
def sonnet_4_5 : ClaudeModel where
  name := "Claude Sonnet 4.5"
  apiId := "claude-sonnet-4-5-20250929"
  modelAlias := "claude-sonnet-4-5"
  tier := "balanced"
  releaseDate := "2025-09-29"
  knowledgeCutoff := "January 2025"
  contextWindow := 200000
  contextWindowExtended := some 1000000
  maxOutput := 64000
  pricing :=
    { input := 3.00, output := 15.00, cacheWrite5min := 3.75, cacheWrite1hr := 6.00
      cacheRead := 0.30, longContextInput := some 6.00, longContextOutput := some 22.50
      batchDiscount := "50%" }
  features :=
    ["Extended thinking",
     "1M context window (beta, tier 4+)",
     "Computer use",
     "Context awareness",
     "Vision",
     "77.2% SWE-bench Verified",
     "Best balance of speed/cost/quality"]

/-- `CLAUDE_MODELS.haiku_4_5` (`constants.ts` lines 76-102). -/
def haiku_4_5 : ClaudeModel where
  name := "Claude Haiku 4.5"
  apiId := "claude-haiku-4-5-20251001"
  modelAlias := "claude-haiku-4-5"
  tier := "fast"
  releaseDate := "2025-10-15"
  knowledgeCutoff := "February 2025"
  contextWindow := 200000
  maxOutput := 64000
  pricing :=
    { input := 1.00, output := 5.00, cacheWrite5min := 1.25, cacheWrite1hr := 2.00
      cacheRead := 0.10, batchDiscount := "50%" }
  features :=
    ["Extended thinking",
     "Computer use",
     "Context awareness",
     "Vision",
     "73.3% SWE-bench Verified",
     "4-5x faster than Sonnet 4.5",
     "Best for high-volume, latency-sensitive tasks"]

/-- The catalogue `CLAUDE_MODELS` as an association list, in the object's
declaration order (which `Object.entries` preserves). -/
def CLAUDE_MODELS : List (String × ClaudeModel) :=
  [("opus_4_5", opus_4_5), ("sonnet_4_5", sonnet_4_5), ("haiku_4_5", haiku_4_5)]

/-- Dynamic record lookup `CLAUDE_MODELS[modelKey]`: `some` on the three
known keys, `none` (JS `undefined`) otherwise. -/
def lookupModel (modelKey : String) : Option ClaudeModel :=
  (CLAUDE_MODELS.find? (fun kv => kv.1 == modelKey)).map (fun kv => kv.2)

/-- `PRICING_MULTIPLIERS` (`constants.ts` lines 189-196). -/
structure PricingMultipliers where
  cacheWrite5min : ℚ
  cacheWrite1hr : ℚ
  cacheRead : ℚ
  batchDiscount : ℚ
  longContextInput : ℚ
  longContextOutput : ℚ
deriving DecidableEq, Repr

def PRICING_MULTIPLIERS : PricingMultipliers where
  cacheWrite5min := 1.25
  cacheWrite1hr := 2.00
  cacheRead := 0.10
  batchDiscount := 0.50
  longContextInput := 2.00
  longContextOutput := 1.50

/-- `CONTEXT_LIMITS` (`constants.ts` lines 202-207). -/
structure ContextLimits where
  standard : Nat
  extended : Nat
  maxOutput : Nat
  longContextThreshold : Nat
deriving DecidableEq, Repr

def CONTEXT_LIMITS : ContextLimits where
  standard := 200000
  extended := 1000000
  maxOutput := 64000
  longContextThreshold := 200000

/-- `THINKING_CONFIG` (`constants.ts` lines 109-123). -/
structure ThinkingConfig where
  minBudget : Nat
  recommendedStart : Nat
  largeBudgetThreshold : Nat
  maxWithInterleaved : Nat
  rules : List String
deriving DecidableEq, Repr

def THINKING_CONFIG : ThinkingConfig where
  minBudget := 1024
  recommendedStart := 16000
  largeBudgetThreshold := 32000
  maxWithInterleaved := 200000
  rules :=
    ["budget_tokens must be at least 1,024",
     "Standard mode: budget_tokens must be LESS than max_tokens",
     "Interleaved mode with tools: budget_tokens can EXCEED max_tokens (uses full context window)",
     "Thinking tokens are billed as OUTPUT tokens",
     "Previous thinking blocks are auto-stripped from context (except Opus 4.5 which preserves them by default)",
     "For budgets above 32K, use batch processing to avoid networking issues",
     "Opus 4.5 preserves thinking blocks across turns for better multi-step reasoning"]

/-- JS truthiness of an optional numeric field: `undefined` and `0` are
falsy, any other number is truthy (used by
`longContext && model.pricing.longContextInput`). -/
def jsTruthy : Option ℚ → Bool
  | none => false
  | some q => q != 0

/-- Price selection, `documentation.ts` lines 448-454: the long-context
input price replaces the base input price when `longContext` is requested
and the field is (truthily) present. -/
def selectedInputPrice (model : ClaudeModel) (longContext : Bool) : ℚ :=
  if longContext && jsTruthy model.pricing.longContextInput then
    model.pricing.longContextInput.getD model.pricing.input
  else
    model.pricing.input

/-- Price selection for output, `documentation.ts` lines 449-457. -/
def selectedOutputPrice (model : ClaudeModel) (longContext : Bool) : ℚ :=
  if longContext && jsTruthy model.pricing.longContextOutput then
    model.pricing.longContextOutput.getD model.pricing.output
  else
    model.pricing.output

/-- `inputCost = (inputTokens / 1_000_000) * inputPrice`
(`documentation.ts` line 460). -/
def rawInputCost (model : ClaudeModel) (inputTokens : Nat) (longContext : Bool) : ℚ :=
  ((inputTokens : ℚ) / 1000000) * selectedInputPrice model longContext

/-- `outputCost = (totalOutputTokens / 1_000_000) * outputPrice`
(`documentation.ts` line 461). -/
def rawOutputCost (model : ClaudeModel) (totalOutputTokens : Nat) (longContext : Bool) : ℚ :=
  ((totalOutputTokens : ℚ) / 1000000) * selectedOutputPrice model longContext

/-- The recomputed input cost inside the cache branch
(`documentation.ts` lines 466-475): hits at the `cacheRead` multiplier plus
misses at the `cacheWrite5min` multiplier, both on the selected input
price. -/
def cachedInputCost (model : ClaudeModel) (inputTokens : Nat) (cacheHitRatio : ℚ)
    (longContext : Bool) : ℚ :=
  let cacheHits := (inputTokens : ℚ) * cacheHitRatio
  let cacheMisses := (inputTokens : ℚ) * (1 - cacheHitRatio)
  (cacheHits / 1000000) * selectedInputPrice model longContext * PRICING_MULTIPLIERS.cacheRead
    + (cacheMisses / 1000000) * selectedInputPrice model longContext
        * PRICING_MULTIPLIERS.cacheWrite5min

/-- The variable `inputCost` after the optional cache adjustment
(`documentation.ts` lines 460, 463-477). -/
def inputCostAfterCache (model : ClaudeModel) (inputTokens : Nat) (useCache : Bool)
    (cacheHitRatio : ℚ) (longContext : Bool) : ℚ :=
  if useCache then cachedInputCost model inputTokens cacheHitRatio longContext
  else rawInputCost model inputTokens longContext

/-- The variable `cacheDiscount` (`documentation.ts` lines 464-477):
original input cost minus recomputed input cost when caching, else `0`. -/
def cacheDiscountAmount (model : ClaudeModel) (inputTokens : Nat) (useCache : Bool)
    (cacheHitRatio : ℚ) (longContext : Bool) : ℚ :=
  if useCache then
    rawInputCost model inputTokens longContext
      - cachedInputCost model inputTokens cacheHitRatio longContext
  else 0

/-- `baseCost = inputCost + outputCost` before the batch branch
(`documentation.ts` line 479). -/
def baseAfterCache (model : ClaudeModel) (inputTokens totalOutputTokens : Nat)
    (useCache : Bool) (cacheHitRatio : ℚ) (longContext : Bool) : ℚ :=
  inputCostAfterCache model inputTokens useCache cacheHitRatio longContext
    + rawOutputCost model totalOutputTokens longContext

/-- The variable `batchDiscount` (`documentation.ts` lines 482-486). -/
def batchDiscountAmount (model : ClaudeModel) (inputTokens totalOutputTokens : Nat)
    (useCache : Bool) (cacheHitRatio : ℚ) (useBatch longContext : Bool) : ℚ :=
  if useBatch then
    baseAfterCache model inputTokens totalOutputTokens useCache cacheHitRatio longContext * 0.5
  else 0

/-- The variable `baseCost` after the batch branch, which the source stores
into `finalCost` (`documentation.ts` lines 483-486, 498). -/
def finalCostAmount (model : ClaudeModel) (inputTokens totalOutputTokens : Nat)
    (useCache : Bool) (cacheHitRatio : ℚ) (useBatch longContext : Bool) : ℚ :=
  if useBatch then
    baseAfterCache model inputTokens totalOutputTokens useCache cacheHitRatio longContext * 0.5
  else
    baseAfterCache model inputTokens totalOutputTokens useCache cacheHitRatio longContext

/-- `CostCalculation.breakdown` (`documentation.ts` lines 422-425). -/
structure CostBreakdown where
  inputCost : ℚ
  outputCost : ℚ
deriving DecidableEq, Repr

/-- Interface `CostCalculation` (`documentation.ts` lines 411-426). -/
structure CostCalculation where
  model : String
  inputTokens : Nat
  outputTokens : Nat
  thinkingTokens : Nat
  totalOutputTokens : Nat
  baseCost : ℚ
  cacheDiscount : ℚ
  batchDiscount : ℚ
  longContextPremium : ℚ
  finalCost : ℚ
  breakdown : CostBreakdown
deriving DecidableEq, Repr

/-- `calculateCost` (`documentation.ts` lines 428-503).  The returned
`CostCalculation` record is the structured result from which the source
renders both the JSON and the markdown output; the unknown-model branch
returns the source's error string.  Note the reported `baseCost` field
(line 494) adds `batchDiscount` on top of the NOT-halved
`inputCost + outputCost`, and `finalCost` (line 498) is the halved
`baseCost` variable. -/
def calculateCost (modelKey : String) (inputTokens outputTokens thinkingTokens : Nat)
    (useCache : Bool) (cacheHitRatio : ℚ) (useBatch : Bool) (longContext : Bool) :
    Except String CostCalculation :=
  match lookupModel modelKey with
  | none => .error ("Error: Model \x27" ++ modelKey ++ "\x27 not found.")
  | some model =>
    let totalOutputTokens := outputTokens + thinkingTokens
    let inputCost := inputCostAfterCache model inputTokens useCache cacheHitRatio longContext
    let outputCost := rawOutputCost model totalOutputTokens longContext
    let batchDiscount :=
      batchDiscountAmount model inputTokens totalOutputTokens useCache cacheHitRatio
        useBatch longContext
    .ok
      { model := model.name
        inputTokens := inputTokens
        outputTokens := outputTokens
        thinkingTokens := thinkingTokens
        totalOutputTokens := totalOutputTokens
        baseCost := inputCost + outputCost + (if batchDiscount > 0 then batchDiscount else 0)
        cacheDiscount :=
          cacheDiscountAmount model inputTokens useCache cacheHitRatio longContext
        batchDiscount := batchDiscount
        longContextPremium :=
          if longContext then
            (selectedInputPrice model longContext - model.pricing.input)
              * ((inputTokens : ℚ) / 1000000)
          else 0
        finalCost :=
          finalCostAmount model inputTokens totalOutputTokens useCache cacheHitRatio
            useBatch longContext
        breakdown := { inputCost := inputCost, outputCost := outputCost } }

/-- Structured payload behind `getModelInfo` (`documentation.ts` lines
179-200): either the whole catalogue (key `"all"`) or one model; the
markdown and JSON renderings are both derived from this. -/
inductive ModelInfoPayload
  | all (models : List (String × ClaudeModel))
  | one (model : ClaudeModel)
deriving DecidableEq, Repr

/-- `getModelInfo` (`documentation.ts` lines 179-200), with the text
rendering abstracted to the payload it is generated from.  Unknown keys
return the source's error string. -/
def getModelInfo (modelKey : String) : Except String ModelInfoPayload :=
  if modelKey = "all" then .ok (.all CLAUDE_MODELS)
  else
    match lookupModel modelKey with
    | none =>
      .error ("Error: Model \x27" ++ modelKey
        ++ "\x27 not found. Available: opus_4_5, sonnet_4_5, haiku_4_5")
    | some model => .ok (.one model)

/-- Structured payload behind `getPricing` (`documentation.ts` lines
231-270): the selected models and, optionally, the global multipliers. -/
structure PricingPayload where
  models : List (String × ClaudeModel)
  multipliers : Option PricingMultipliers
deriving DecidableEq, Repr

/-- `getPricing` (`documentation.ts` lines 231-270).  The `models` list is
the whole catalogue for `"all"`, else the singleton surviving the
truthiness filter; an empty list yields the source's error string. -/
def getPricing (modelKey : String) (includeDiscounts : Bool) : Except String PricingPayload :=
  let models : List (String × ClaudeModel) :=
    if modelKey = "all" then CLAUDE_MODELS
    else
      match lookupModel modelKey with
      | some m => [(modelKey, m)]
      | none => []
  if models.length = 0 then
    .error ("Error: Model \x27" ++ modelKey ++ "\x27 not found.")
  else
    .ok { models := models, multipliers := if includeDiscounts then some PRICING_MULTIPLIERS else none }

/-- Structured payload behind `getTokenLimits` (`documentation.ts` lines
276-317): per-model rows (possibly none), the global context limits and
the thinking-budget numbers.  Note the source has NO unknown-model branch:
it renders this payload for every key. -/
structure TokenLimitsPayload where
  models : List (String × ClaudeModel)
  limits : ContextLimits
  thinking : ThinkingConfig
deriving DecidableEq, Repr

/-- `getTokenLimits` (`documentation.ts` lines 276-317).  For an unknown
key the `models` row list is empty but the function still returns the
limits table - there is no not-found message in the source. -/
def getTokenLimits (modelKey : String) : TokenLimitsPayload :=
  let models : List (String × ClaudeModel) :=
    if modelKey = "all" then CLAUDE_MODELS
    else
      match lookupModel modelKey with
      | some m => [(modelKey, m)]
      | none => []
  { models := models, limits := CONTEXT_LIMITS, thinking := THINKING_CONFIG }

/-- `charsMatchAt l pat` : `pat` is a character-wise initial segment of
`l` (helper for substring containment). -/
def charsMatchAt : List Char → List Char → Bool
  | _, [] => true
  | [], _ :: _ => false
  | c :: cs, p :: ps => c == p && charsMatchAt cs ps

/-- `charsContain pat l` : `pat` occurs contiguously inside `l`. -/
def charsContain (pat : List Char) : List Char → Bool
  | [] => pat.isEmpty
  | c :: cs => charsMatchAt (c :: cs) pat || charsContain pat cs

/-- JS `haystack.includes(needle)` : substring containment. -/
def containsSub (haystack needle : String) : Bool :=
  charsContain needle.data haystack.data

/-- JS `String.prototype.toLowerCase()` on the ASCII data occurring in the
catalogue: lower-case every character. -/
def lowerStr (s : String) : String :=
  String.mk (s.data.map Char.toLower)

/-- Tag for the rendered content of one search result: the source stores
the full rendered section (`formatModelMarkdown model`,
`getThinkingConfig(true, true, "markdown")`, `getPricing("all", true,
"markdown")`, `getBetaHeaders("markdown")`, lines 590, 604, 618, 632). -/
inductive SearchContent
  | modelDoc (model : ClaudeModel)
  | thinkingDoc
  | pricingDoc
  | betaDoc
deriving DecidableEq, Repr

/-- One entry of the `results` array built by `searchDocs`
(`documentation.ts` line 579).  `sectionLabel` models the `section`
field (a Lean keyword). -/
structure SearchResult where
  sectionLabel : String
  content : SearchContent
  relevance : ℚ
deriving DecidableEq, Repr

/-- The per-model candidate of `searchDocs` (`documentation.ts` lines
582-594): match on name, API id, or any feature string; relevance `1`
for a name match, else `0.7`. -/
def modelSearchHit (lowerQuery : String) (model : ClaudeModel) : Option SearchResult :=
  if containsSub (lowerStr model.name) lowerQuery
      || containsSub (lowerStr model.apiId) lowerQuery
      || model.features.any (fun f => containsSub (lowerStr f) lowerQuery) then
    some
      { sectionLabel := "Models"
        content := .modelDoc model
        relevance := if containsSub (lowerStr model.name) lowerQuery then 1 else 0.7 }
  else none

/-- The candidate list pushed by `searchDocs` before sorting
(`documentation.ts` lines 577-636), in push order: models in catalogue
order, then the thinking, pricing and beta-header topics. -/
def searchCandidates (query : String) : List SearchResult :=
  let lowerQuery := lowerStr query
  (CLAUDE_MODELS.filterMap fun kv => modelSearchHit lowerQuery kv.2)
    ++ (if containsSub lowerQuery "think" || containsSub lowerQuery "budget"
          || containsSub lowerQuery "reasoning" then
          [{ sectionLabel := "Extended Thinking", content := .thinkingDoc, relevance := 0.9 }]
        else [])
    ++ (if containsSub lowerQuery "price" || containsSub lowerQuery "cost"
          || containsSub lowerQuery "token" || containsSub lowerQuery "$" then
          [{ sectionLabel := "Pricing", content := .pricingDoc, relevance := 0.9 }]
        else [])
    ++ (if containsSub lowerQuery "beta" || containsSub lowerQuery "header"
          || containsSub lowerQuery "interleaved" || containsSub lowerQuery "1m"
          || containsSub lowerQuery "context" then
          [{ sectionLabel := "Beta Headers", content := .betaDoc, relevance := 0.8 }]
        else [])

/-- Descending-relevance comparison used by the sort
(`results.sort((a, b) => b.relevance - a.relevance)`, line 639):
`relGe a b` holds when `a` may come before `b`. -/
def relGe (a b : SearchResult) : Prop :=
  b.relevance ≤ a.relevance

instance : DecidableRel relGe := fun a b =>
  inferInstanceAs (Decidable (b.relevance ≤ a.relevance))

instance : IsTotal SearchResult relGe :=
  ⟨fun a b => le_total b.relevance a.relevance⟩

instance : IsTrans SearchResult relGe :=
  ⟨fun _ _ _ hab hbc => le_trans hbc hab⟩

/-- The sorted result list (`documentation.ts` line 639).  JS
`Array.prototype.sort` is stable; insertion sort with `relGe` places an
earlier element before a later one exactly when their relevances tie or
the earlier one is larger, which is the same stable descending order. -/
def searchResultsSorted (query : String) : List SearchResult :=
  List.insertionSort relGe (searchCandidates query)

/-- Structured JSON output of `searchDocs` (`documentation.ts` lines
641-648): the empty case carries the `"No results found"` message, the
non-empty case carries every match. -/
structure SearchJsonOutput where
  query : String
  results : List SearchResult
  message : Option String
deriving DecidableEq, Repr

def searchDocsJson (query : String) : SearchJsonOutput :=
  let results := searchResultsSorted query
  if results.length = 0 then
    { query := query, results := [], message := some "No results found" }
  else
    { query := query, results := results, message := none }

/-- Structured markdown output of `searchDocs` (`documentation.ts` lines
641-659): the no-results message with its suggestion line, or the result
count together with the results actually rendered (`results.slice(0, 3)`). -/
inductive SearchMarkdownOutput
  | noResults (query : String) (suggestion : String)
  | results (query : String) (found : Nat) (shown : List SearchResult)
deriving DecidableEq, Repr

def searchDocsMarkdown (query : String) : SearchMarkdownOutput :=
  let results := searchResultsSorted query
  if results.length = 0 then
    .noResults query "Try searching for: models, pricing, tokens, thinking, beta headers"
  else
    .results query results.length (results.take 3)

/-!  ## Helper lemmas  -/

theorem lookupModel_opus : lookupModel "opus_4_5" = some opus_4_5 := rfl

theorem lookupModel_sonnet : lookupModel "sonnet_4_5" = some sonnet_4_5 := rfl

theorem lookupModel_haiku : lookupModel "haiku_4_5" = some haiku_4_5 := rfl

/-- A successful catalogue lookup always returns one of the three shipped
models. -/
theorem model_of_lookup {k : String} {m : ClaudeModel} (h : lookupModel k = some m) :
    m = opus_4_5 ∨ m = sonnet_4_5 ∨ m = haiku_4_5 := by
  unfold lookupModel CLAUDE_MODELS at h
  cases h1 : (("opus_4_5" : String) == k) <;> cases h2 : (("sonnet_4_5" : String) == k) <;>
    cases h3 : (("haiku_4_5" : String) == k) <;>
      simp only [List.find?, h1, h2, h3] at h <;> simp_all

/-- Unfolding `calculateCost` on a successful lookup. -/
theorem calculateCost_ok {k : String} {m : ClaudeModel} (h : lookupModel k = some m)
    (it ot tt : Nat) (uc : Bool) (r : ℚ) (ub lc : Bool) :
    calculateCost k it ot tt uc r ub lc = .ok
      { model := m.name
        inputTokens := it
        outputTokens := ot
        thinkingTokens := tt
        totalOutputTokens := ot + tt
        baseCost := inputCostAfterCache m it uc r lc + rawOutputCost m (ot + tt) lc
          + (if batchDiscountAmount m it (ot + tt) uc r ub lc > 0 then
              batchDiscountAmount m it (ot + tt) uc r ub lc else 0)
        cacheDiscount := cacheDiscountAmount m it uc r lc
        batchDiscount := batchDiscountAmount m it (ot + tt) uc r ub lc
        longContextPremium :=
          if lc then
            (selectedInputPrice m lc - m.pricing.input) * ((it : ℚ) / 1000000)
          else 0
        finalCost := finalCostAmount m it (ot + tt) uc r ub lc
        breakdown :=
          { inputCost := inputCostAfterCache m it uc r lc
            outputCost := rawOutputCost m (ot + tt) lc } } := by
  simp only [calculateCost, h]

theorem opus_name : opus_4_5.name = "Claude Opus 4.5" := rfl

theorem sonnet_name : sonnet_4_5.name = "Claude Sonnet 4.5" := rfl

theorem haiku_name : haiku_4_5.name = "Claude Haiku 4.5" := rfl

theorem opus_input_price : opus_4_5.pricing.input = 5 := by norm_num [opus_4_5]

theorem sonnet_input_price : sonnet_4_5.pricing.input = 3 := by norm_num [sonnet_4_5]

theorem haiku_input_price : haiku_4_5.pricing.input = 1 := by norm_num [haiku_4_5]

theorem selectedInputPrice_opus (lc : Bool) : selectedInputPrice opus_4_5 lc = 5 := by
  norm_num [selectedInputPrice, opus_4_5, jsTruthy]

theorem selectedOutputPrice_opus (lc : Bool) : selectedOutputPrice opus_4_5 lc = 25 := by
  norm_num [selectedOutputPrice, opus_4_5, jsTruthy]

theorem selectedInputPrice_haiku (lc : Bool) : selectedInputPrice haiku_4_5 lc = 1 := by
  norm_num [selectedInputPrice, haiku_4_5, jsTruthy]

theorem selectedOutputPrice_haiku (lc : Bool) : selectedOutputPrice haiku_4_5 lc = 5 := by
  norm_num [selectedOutputPrice, haiku_4_5, jsTruthy]

theorem selectedInputPrice_sonnet (lc : Bool) :
    selectedInputPrice sonnet_4_5 lc = if lc then 6 else 3 := by
  cases lc <;> norm_num [selectedInputPrice, sonnet_4_5, jsTruthy]

theorem selectedOutputPrice_sonnet (lc : Bool) :
    selectedOutputPrice sonnet_4_5 lc = if lc then 45/2 else 15 := by
  cases lc <;> norm_num [selectedOutputPrice, sonnet_4_5, jsTruthy]

theorem selectedInputPrice_nonneg {k : String} {m : ClaudeModel}
    (h : lookupModel k = some m) (lc : Bool) : 0 ≤ selectedInputPrice m lc := by
  rcases model_of_lookup h with rfl | rfl | rfl
  · rw [selectedInputPrice_opus]; norm_num
  · rw [selectedInputPrice_sonnet]; cases lc <;> norm_num
  · rw [selectedInputPrice_haiku]; norm_num

theorem selectedOutputPrice_nonneg {k : String} {m : ClaudeModel}
    (h : lookupModel k = some m) (lc : Bool) : 0 ≤ selectedOutputPrice m lc := by
  rcases model_of_lookup h with rfl | rfl | rfl
  · rw [selectedOutputPrice_opus]; norm_num
  · rw [selectedOutputPrice_sonnet]; cases lc <;> norm_num
  · rw [selectedOutputPrice_haiku]; norm_num

theorem inputCostAfterCache_nonneg {m : ClaudeModel} {lc : Bool}
    (hp : 0 ≤ selectedInputPrice m lc) (it : Nat) (uc : Bool) {r : ℚ}
    (hr0 : 0 ≤ r) (hr1 : r ≤ 1) : 0 ≤ inputCostAfterCache m it uc r lc := by
  have hit : (0 : ℚ) ≤ (it : ℚ) := Nat.cast_nonneg it
  unfold inputCostAfterCache cachedInputCost rawInputCost
  split
  · have h1 : (0 : ℚ) ≤ (it : ℚ) * r / 1000000 * selectedInputPrice m lc := by
      apply mul_nonneg _ hp
      positivity
    have h2 : (0 : ℚ) ≤ (it : ℚ) * (1 - r) / 1000000 * selectedInputPrice m lc := by
      apply mul_nonneg _ hp
      have : (0 : ℚ) ≤ 1 - r := by linarith
      positivity
    have hread : (0 : ℚ) ≤ PRICING_MULTIPLIERS.cacheRead := by norm_num [PRICING_MULTIPLIERS]
    have hwrite : (0 : ℚ) ≤ PRICING_MULTIPLIERS.cacheWrite5min := by
      norm_num [PRICING_MULTIPLIERS]
    exact add_nonneg (mul_nonneg h1 hread) (mul_nonneg h2 hwrite)
  · exact mul_nonneg (by positivity) hp

theorem rawOutputCost_nonneg {m : ClaudeModel} {lc : Bool}
    (hp : 0 ≤ selectedOutputPrice m lc) (tot : Nat) : 0 ≤ rawOutputCost m tot lc := by
  unfold rawOutputCost
  exact mul_nonneg (by positivity) hp

theorem baseAfterCache_nonneg {k : String} {m : ClaudeModel} (h : lookupModel k = some m)
    (it tot : Nat) (uc : Bool) {r : ℚ} (hr0 : 0 ≤ r) (hr1 : r ≤ 1) (lc : Bool) :
    0 ≤ baseAfterCache m it tot uc r lc := by
  unfold baseAfterCache
  exact add_nonneg
    (inputCostAfterCache_nonneg (selectedInputPrice_nonneg h lc) it uc hr0 hr1)
    (rawOutputCost_nonneg (selectedOutputPrice_nonneg h lc) tot)

/-!  ## Claim theorems  -/

/-- C3: for every known model, with zero thinking tokens and cache, batch
and long-context all disabled, the final cost is exactly
`input_tokens/1e6 × base input price + output_tokens/1e6 × base output
price`; and on the spec's concrete example (`sonnet_4_5`, input 10000,
output 2000, thinking 5000, everything off) the total output tokens are
7000, the input cost `0.03`, the output cost `0.105` and the final cost
`0.135`. -/
theorem calculateCost_base_pricing :
    (∀ (k : String) (m : ClaudeModel), lookupModel k = some m →
      ∀ (it ot : Nat) (r : ℚ) (res : CostCalculation),
        calculateCost k it ot 0 false r false false = .ok res →
          res.finalCost = ((it : ℚ) / 1000000) * m.pricing.input
            + ((ot : ℚ) / 1000000) * m.pricing.output)
  ∧ (∀ res : CostCalculation,
      calculateCost "sonnet_4_5" 10000 2000 5000 false 0.9 false false = .ok res →
        res.totalOutputTokens = 7000 ∧ res.breakdown.inputCost = 3/100
          ∧ res.breakdown.outputCost = 21/200 ∧ res.finalCost = 27/200) := by
  constructor
  · intro k m h it ot r res hres
    rw [calculateCost_ok h] at hres
    cases Except.ok.inj hres
    norm_num [finalCostAmount, baseAfterCache, inputCostAfterCache, rawInputCost,
      rawOutputCost, selectedInputPrice, selectedOutputPrice]
  · intro res hres
    rw [calculateCost_ok lookupModel_sonnet] at hres
    cases Except.ok.inj hres
    norm_num [finalCostAmount, baseAfterCache, inputCostAfterCache, rawInputCost,
      rawOutputCost, batchDiscountAmount, selectedInputPrice_sonnet,
      selectedOutputPrice_sonnet]

/-- Witness for C3 at a concrete input (`haiku_4_5`, 500000 input and
100000 output tokens): `0.5 × 1.00 + 0.1 × 5.00 = 1`. -/
theorem calculateCost_base_pricing_witness :
    lookupModel "haiku_4_5" = some haiku_4_5
  ∧ calculateCost "haiku_4_5" 500000 100000 0 false 0.9 false false = .ok
      { model := "Claude Haiku 4.5", inputTokens := 500000, outputTokens := 100000
        thinkingTokens := 0, totalOutputTokens := 100000, baseCost := 1, cacheDiscount := 0
        batchDiscount := 0, longContextPremium := 0, finalCost := 1
        breakdown := { inputCost := 1/2, outputCost := 1/2 } }
  ∧ (1 : ℚ) = ((500000 : ℚ) / 1000000) * haiku_4_5.pricing.input
      + ((100000 : ℚ) / 1000000) * haiku_4_5.pricing.output := by
  have hok : calculateCost "haiku_4_5" 500000 100000 0 false 0.9 false false = .ok
      { model := "Claude Haiku 4.5", inputTokens := 500000, outputTokens := 100000
        thinkingTokens := 0, totalOutputTokens := 100000, baseCost := 1, cacheDiscount := 0
        batchDiscount := 0, longContextPremium := 0, finalCost := 1
        breakdown := { inputCost := 1/2, outputCost := 1/2 } } := by
    rw [calculateCost_ok lookupModel_haiku]
    norm_num [finalCostAmount, baseAfterCache, inputCostAfterCache, rawInputCost,
      rawOutputCost, batchDiscountAmount, cacheDiscountAmount, selectedInputPrice_haiku,
      selectedOutputPrice_haiku, haiku_name]
  exact ⟨lookupModel_haiku, hok,
    calculateCost_base_pricing.1 "haiku_4_5" haiku_4_5 lookupModel_haiku
      500000 100000 0.9 _ hok⟩

/-- C7: for every known model and every profile with `0 ≤ cache_hit_ratio
≤ 1`, the reported final cost is non-negative under every combination of
the cache, batch and long-context flags. -/
theorem calculateCost_final_nonneg :
    ∀ (k : String) (m : ClaudeModel), lookupModel k = some m →
    ∀ (it ot tt : Nat) (uc : Bool) (r : ℚ), 0 ≤ r → r ≤ 1 →
    ∀ (ub lc : Bool) (res : CostCalculation),
      calculateCost k it ot tt uc r ub lc = .ok res → 0 ≤ res.finalCost := by
  intro k m h it ot tt uc r hr0 hr1 ub lc res hres
  rw [calculateCost_ok h] at hres
  cases Except.ok.inj hres
  have hB := baseAfterCache_nonneg h it (ot + tt) uc hr0 hr1 lc
  show 0 ≤ finalCostAmount m it (ot + tt) uc r ub lc
  unfold finalCostAmount
  split
  · nlinarith
  · exact hB

/-- Witness for C7 with every flag enabled (`sonnet_4_5`, long context,
cache at ratio 1, batch). -/
theorem calculateCost_final_nonneg_witness :
    lookupModel "sonnet_4_5" = some sonnet_4_5
  ∧ (0 : ℚ) ≤ 1 ∧ (1 : ℚ) ≤ 1
  ∧ calculateCost "sonnet_4_5" 1000000 1000000 0 true 1 true true = .ok
      { model := "Claude Sonnet 4.5", inputTokens := 1000000, outputTokens := 1000000
        thinkingTokens := 0, totalOutputTokens := 1000000, baseCost := 693/20
        cacheDiscount := 27/5, batchDiscount := 231/20, longContextPremium := 3
        finalCost := 231/20, breakdown := { inputCost := 3/5, outputCost := 45/2 } }
  ∧ (0 : ℚ) ≤ 231/20 := by
  have hok : calculateCost "sonnet_4_5" 1000000 1000000 0 true 1 true true = .ok
      { model := "Claude Sonnet 4.5", inputTokens := 1000000, outputTokens := 1000000
        thinkingTokens := 0, totalOutputTokens := 1000000, baseCost := 693/20
        cacheDiscount := 27/5, batchDiscount := 231/20, longContextPremium := 3
        finalCost := 231/20, breakdown := { inputCost := 3/5, outputCost := 45/2 } } := by
    rw [calculateCost_ok lookupModel_sonnet]
    norm_num [finalCostAmount, baseAfterCache, inputCostAfterCache, rawInputCost,
      rawOutputCost, batchDiscountAmount, cacheDiscountAmount, cachedInputCost,
      selectedInputPrice_sonnet, selectedOutputPrice_sonnet, PRICING_MULTIPLIERS,
      sonnet_name, sonnet_input_price]
  exact ⟨lookupModel_sonnet, by norm_num, le_refl 1, hok,
    calculateCost_final_nonneg "sonnet_4_5" sonnet_4_5 lookupModel_sonnet
      1000000 1000000 0 true 1 (by norm_num) (le_refl 1) true true _ hok⟩

/-- C1 counterexample: with batch enabled (`haiku_4_5`, one million input
tokens, nothing else), the code reports `baseCost = 1.5`,
`batchDiscount = 0.5` and `finalCost = 0.5`, but
`baseCost − cacheDiscount − batchDiscount + longContextPremium = 1 ≠ 0.5`:
the claimed accounting identity fails. -/
theorem calculateCost_accounting_identity_counterexample :
    calculateCost "haiku_4_5" 1000000 0 0 false 0.9 true false = .ok
      { model := "Claude Haiku 4.5", inputTokens := 1000000, outputTokens := 0
        thinkingTokens := 0, totalOutputTokens := 0, baseCost := 3/2, cacheDiscount := 0
        batchDiscount := 1/2, longContextPremium := 0, finalCost := 1/2
        breakdown := { inputCost := 1, outputCost := 0 } }
  ∧ ¬ ((1 : ℚ)/2 = 3/2 - 0 - 1/2 + 0) := by
  constructor
  · rw [calculateCost_ok lookupModel_haiku]
    norm_num [finalCostAmount, baseAfterCache, inputCostAfterCache, rawInputCost,
      rawOutputCost, batchDiscountAmount, cacheDiscountAmount, selectedInputPrice_haiku,
      selectedOutputPrice_haiku, haiku_name]
  · norm_num

/-- C1 amended: the identity that actually relates the reported fields is
`finalCost = baseCost − 2 × batchDiscount`, for every known model and
every profile with `cache_hit_ratio ∈ [0,1]`: the cache discount is
already netted inside the reported `baseCost` (whose input component is
the post-cache input cost) and the long-context premium is informational
and never added. -/
theorem calculateCost_accounting_identity_amended :
    ∀ (k : String) (m : ClaudeModel), lookupModel k = some m →
    ∀ (it ot tt : Nat) (uc : Bool) (r : ℚ), 0 ≤ r → r ≤ 1 →
    ∀ (ub lc : Bool) (res : CostCalculation),
      calculateCost k it ot tt uc r ub lc = .ok res →
        res.finalCost = res.baseCost - 2 * res.batchDiscount := by
  intro k m h it ot tt uc r hr0 hr1 ub lc res hres
  rw [calculateCost_ok h] at hres
  cases Except.ok.inj hres
  have hB := baseAfterCache_nonneg h it (ot + tt) uc hr0 hr1 lc
  have hsum : inputCostAfterCache m it uc r lc + rawOutputCost m (ot + tt) lc
      = baseAfterCache m it (ot + tt) uc r lc := rfl
  show finalCostAmount m it (ot + tt) uc r ub lc
    = inputCostAfterCache m it uc r lc + rawOutputCost m (ot + tt) lc
      + (if batchDiscountAmount m it (ot + tt) uc r ub lc > 0 then
          batchDiscountAmount m it (ot + tt) uc r ub lc else 0)
      - 2 * batchDiscountAmount m it (ot + tt) uc r ub lc
  rw [hsum]
  unfold finalCostAmount batchDiscountAmount
  cases ub
  · simp
  · simp only [if_true]
    rcases lt_or_eq_of_le hB with hpos | hzero
    · rw [if_pos (by nlinarith)]
      ring
    · rw [← hzero]
      norm_num

/-- Witness for C1's amended identity at a concrete batch call
(`haiku_4_5`, one million input tokens): `0.5 = 1.5 − 2 × 0.5`. -/
theorem calculateCost_accounting_identity_amended_witness :
    lookupModel "haiku_4_5" = some haiku_4_5
  ∧ (0 : ℚ) ≤ 9/10 ∧ (9/10 : ℚ) ≤ 1
  ∧ calculateCost "haiku_4_5" 1000000 0 0 false (9/10) true false = .ok
      { model := "Claude Haiku 4.5", inputTokens := 1000000, outputTokens := 0
        thinkingTokens := 0, totalOutputTokens := 0, baseCost := 3/2, cacheDiscount := 0
        batchDiscount := 1/2, longContextPremium := 0, finalCost := 1/2
        breakdown := { inputCost := 1, outputCost := 0 } }
  ∧ (1 : ℚ)/2 = 3/2 - 2 * (1/2) := by
  have hok : calculateCost "haiku_4_5" 1000000 0 0 false (9/10) true false = .ok
      { model := "Claude Haiku 4.5", inputTokens := 1000000, outputTokens := 0
        thinkingTokens := 0, totalOutputTokens := 0, baseCost := 3/2, cacheDiscount := 0
        batchDiscount := 1/2, longContextPremium := 0, finalCost := 1/2
        breakdown := { inputCost := 1, outputCost := 0 } } := by
    rw [calculateCost_ok lookupModel_haiku]
    norm_num [finalCostAmount, baseAfterCache, inputCostAfterCache, rawInputCost,
      rawOutputCost, batchDiscountAmount, cacheDiscountAmount, selectedInputPrice_haiku,
      selectedOutputPrice_haiku, haiku_name]
  exact ⟨lookupModel_haiku, by norm_num, by norm_num, hok,
    calculateCost_accounting_identity_amended "haiku_4_5" haiku_4_5 lookupModel_haiku
      1000000 0 0 false (9/10) (by norm_num) (by norm_num) true false _ hok⟩

/-- C2 counterexample: with caching enabled at hit ratio `0.1 > 0`
(`haiku_4_5`, one million input tokens), the reported cache discount is
`1 − (0.1×0.1 + 0.9×1.25) = −0.135 < 0`: the cache-write premium
outweighs the read discount, so the claimed non-negativity for every
positive hit ratio fails. -/
theorem calculateCost_cacheDiscount_counterexample :
    (0 : ℚ) < 1/10
  ∧ calculateCost "haiku_4_5" 1000000 0 0 true (1/10) false false = .ok
      { model := "Claude Haiku 4.5", inputTokens := 1000000, outputTokens := 0
        thinkingTokens := 0, totalOutputTokens := 0, baseCost := 227/200
        cacheDiscount := -27/200, batchDiscount := 0, longContextPremium := 0
        finalCost := 227/200, breakdown := { inputCost := 227/200, outputCost := 0 } }
  ∧ ¬ ((0 : ℚ) ≤ -27/200) := by
  refine ⟨by norm_num, ?_, by norm_num⟩
  rw [calculateCost_ok lookupModel_haiku]
  norm_num [finalCostAmount, baseAfterCache, inputCostAfterCache, rawInputCost,
    rawOutputCost, batchDiscountAmount, cacheDiscountAmount, cachedInputCost,
    selectedInputPrice_haiku, selectedOutputPrice_haiku, PRICING_MULTIPLIERS, haiku_name]

/-- C2 amended: the reported cache discount is exactly the original input
cost minus the input cost recomputed with the cache-read and
cache-write-5min multipliers, and it is zero when `use_cache` is false;
it is non-negative only from hit ratio `5/23 ≈ 0.217` upwards (not for
every positive ratio, as the counterexample shows). -/
theorem calculateCost_cacheDiscount_amended :
    ∀ (k : String) (m : ClaudeModel), lookupModel k = some m →
    ∀ (it ot tt : Nat) (r : ℚ) (ub lc : Bool),
      (∀ res, calculateCost k it ot tt false r ub lc = .ok res → res.cacheDiscount = 0)
    ∧ (∀ res, calculateCost k it ot tt true r ub lc = .ok res →
        res.cacheDiscount = rawInputCost m it lc - cachedInputCost m it r lc
        ∧ (5/23 ≤ r → 0 ≤ res.cacheDiscount)) := by
  intro k m h it ot tt r ub lc
  constructor
  · intro res hres
    rw [calculateCost_ok h] at hres
    cases Except.ok.inj hres
    simp [cacheDiscountAmount]
  · intro res hres
    rw [calculateCost_ok h] at hres
    cases Except.ok.inj hres
    have hval : cacheDiscountAmount m it true r lc
        = rawInputCost m it lc - cachedInputCost m it r lc := by
      simp [cacheDiscountAmount]
    refine ⟨hval, ?_⟩
    intro hr
    have hp := selectedInputPrice_nonneg h lc
    have hit : (0 : ℚ) ≤ (it : ℚ) := Nat.cast_nonneg it
    have hfac : (0 : ℚ) ≤ 23 * r / 20 - 1/4 := by linarith
    have heq : rawInputCost m it lc - cachedInputCost m it r lc
        = (it : ℚ) * selectedInputPrice m lc * (23 * r / 20 - 1/4) / 1000000 := by
      unfold rawInputCost cachedInputCost
      norm_num [PRICING_MULTIPLIERS]
      ring
    show 0 ≤ cacheDiscountAmount m it true r lc
    rw [hval, heq]
    have := mul_nonneg (mul_nonneg hit hp) hfac
    positivity

/-- Witness for C2's amended claim (`haiku_4_5`, one million input
tokens): disabled cache reports discount `0`; hit ratio `1/2 ≥ 5/23`
reports discount `1 − (0.05 + 0.625) = 0.325 ≥ 0`. -/
theorem calculateCost_cacheDiscount_amended_witness :
    lookupModel "haiku_4_5" = some haiku_4_5
  ∧ calculateCost "haiku_4_5" 1000000 0 0 false (1/2) false false = .ok
      { model := "Claude Haiku 4.5", inputTokens := 1000000, outputTokens := 0
        thinkingTokens := 0, totalOutputTokens := 0, baseCost := 1, cacheDiscount := 0
        batchDiscount := 0, longContextPremium := 0, finalCost := 1
        breakdown := { inputCost := 1, outputCost := 0 } }
  ∧ (0 : ℚ) = 0
  ∧ calculateCost "haiku_4_5" 1000000 0 0 true (1/2) false false = .ok
      { model := "Claude Haiku 4.5", inputTokens := 1000000, outputTokens := 0
        thinkingTokens := 0, totalOutputTokens := 0, baseCost := 27/40
        cacheDiscount := 13/40, batchDiscount := 0, longContextPremium := 0
        finalCost := 27/40, breakdown := { inputCost := 27/40, outputCost := 0 } }
  ∧ (13/40 : ℚ)
      = rawInputCost haiku_4_5 1000000 false - cachedInputCost haiku_4_5 1000000 (1/2) false
  ∧ (5/23 : ℚ) ≤ 1/2
  ∧ (0 : ℚ) ≤ 13/40 := by
  have hoff : calculateCost "haiku_4_5" 1000000 0 0 false (1/2) false false = .ok
      { model := "Claude Haiku 4.5", inputTokens := 1000000, outputTokens := 0
        thinkingTokens := 0, totalOutputTokens := 0, baseCost := 1, cacheDiscount := 0
        batchDiscount := 0, longContextPremium := 0, finalCost := 1
        breakdown := { inputCost := 1, outputCost := 0 } } := by
    rw [calculateCost_ok lookupModel_haiku]
    norm_num [finalCostAmount, baseAfterCache, inputCostAfterCache, rawInputCost,
      rawOutputCost, batchDiscountAmount, cacheDiscountAmount, selectedInputPrice_haiku,
      selectedOutputPrice_haiku, haiku_name]
  have hon : calculateCost "haiku_4_5" 1000000 0 0 true (1/2) false false = .ok
      { model := "Claude Haiku 4.5", inputTokens := 1000000, outputTokens := 0
        thinkingTokens := 0, totalOutputTokens := 0, baseCost := 27/40
        cacheDiscount := 13/40, batchDiscount := 0, longContextPremium := 0
        finalCost := 27/40, breakdown := { inputCost := 27/40, outputCost := 0 } } := by
    rw [calculateCost_ok lookupModel_haiku]
    norm_num [finalCostAmount, baseAfterCache, inputCostAfterCache, rawInputCost,
      rawOutputCost, batchDiscountAmount, cacheDiscountAmount, cachedInputCost,
      selectedInputPrice_haiku, selectedOutputPrice_haiku, PRICING_MULTIPLIERS, haiku_name]
  have H := calculateCost_cacheDiscount_amended "haiku_4_5" haiku_4_5 lookupModel_haiku
    1000000 0 0 (1/2) false false
  exact ⟨lookupModel_haiku, hoff, H.1 _ hoff, hon, (H.2 _ hon).1, by norm_num,
    (H.2 _ hon).2 (by norm_num)⟩

/-- C5: enabling batch with all other arguments identical yields exactly
half the final cost, and the reported batch discount is exactly half of
the post-cache combined input+output cost (the breakdown sum, which the
batch step does not touch). -/
theorem calculateCost_batch_halves :
    ∀ (k : String) (m : ClaudeModel), lookupModel k = some m →
    ∀ (it ot tt : Nat) (uc : Bool) (r : ℚ) (lc : Bool) (resB resN : CostCalculation),
      calculateCost k it ot tt uc r true lc = .ok resB →
      calculateCost k it ot tt uc r false lc = .ok resN →
        resB.finalCost = 0.5 * resN.finalCost
      ∧ resB.batchDiscount
          = 0.5 * (resB.breakdown.inputCost + resB.breakdown.outputCost) := by
  intro k m h it ot tt uc r lc resB resN hB hN
  rw [calculateCost_ok h] at hB hN
  cases Except.ok.inj hB
  cases Except.ok.inj hN
  constructor
  · show finalCostAmount m it (ot + tt) uc r true lc
      = 0.5 * finalCostAmount m it (ot + tt) uc r false lc
    norm_num [finalCostAmount]
    ring
  · show batchDiscountAmount m it (ot + tt) uc r true lc
      = 0.5 * (inputCostAfterCache m it uc r lc + rawOutputCost m (ot + tt) lc)
    norm_num [batchDiscountAmount, baseAfterCache]
    ring

/-- Witness for C5 (`haiku_4_5`, one million input tokens):
`0.5 = 0.5 × 1` and `0.5 = 0.5 × (1 + 0)`. -/
theorem calculateCost_batch_halves_witness :
    lookupModel "haiku_4_5" = some haiku_4_5
  ∧ calculateCost "haiku_4_5" 1000000 0 0 false (9/10) true false = .ok
      { model := "Claude Haiku 4.5", inputTokens := 1000000, outputTokens := 0
        thinkingTokens := 0, totalOutputTokens := 0, baseCost := 3/2, cacheDiscount := 0
        batchDiscount := 1/2, longContextPremium := 0, finalCost := 1/2
        breakdown := { inputCost := 1, outputCost := 0 } }
  ∧ calculateCost "haiku_4_5" 1000000 0 0 false (9/10) false false = .ok
      { model := "Claude Haiku 4.5", inputTokens := 1000000, outputTokens := 0
        thinkingTokens := 0, totalOutputTokens := 0, baseCost := 1, cacheDiscount := 0
        batchDiscount := 0, longContextPremium := 0, finalCost := 1
        breakdown := { inputCost := 1, outputCost := 0 } }
  ∧ (1 : ℚ)/2 = 0.5 * 1
  ∧ (1 : ℚ)/2 = 0.5 * (1 + 0) := by
  have hB : calculateCost "haiku_4_5" 1000000 0 0 false (9/10) true false = .ok
      { model := "Claude Haiku 4.5", inputTokens := 1000000, outputTokens := 0
        thinkingTokens := 0, totalOutputTokens := 0, baseCost := 3/2, cacheDiscount := 0
        batchDiscount := 1/2, longContextPremium := 0, finalCost := 1/2
        breakdown := { inputCost := 1, outputCost := 0 } } := by
    rw [calculateCost_ok lookupModel_haiku]
    norm_num [finalCostAmount, baseAfterCache, inputCostAfterCache, rawInputCost,
      rawOutputCost, batchDiscountAmount, cacheDiscountAmount, selectedInputPrice_haiku,
      selectedOutputPrice_haiku, haiku_name]
  have hN : calculateCost "haiku_4_5" 1000000 0 0 false (9/10) false false = .ok
      { model := "Claude Haiku 4.5", inputTokens := 1000000, outputTokens := 0
        thinkingTokens := 0, totalOutputTokens := 0, baseCost := 1, cacheDiscount := 0
        batchDiscount := 0, longContextPremium := 0, finalCost := 1
        breakdown := { inputCost := 1, outputCost := 0 } } := by
    rw [calculateCost_ok lookupModel_haiku]
    norm_num [finalCostAmount, baseAfterCache, inputCostAfterCache, rawInputCost,
      rawOutputCost, batchDiscountAmount, cacheDiscountAmount, selectedInputPrice_haiku,
      selectedOutputPrice_haiku, haiku_name]
  have H := calculateCost_batch_halves "haiku_4_5" haiku_4_5 lookupModel_haiku
    1000000 0 0 false (9/10) false _ _ hB hN
  exact ⟨lookupModel_haiku, hB, hN, H.1, H.2⟩

/-- C6: the reported long-context premium is `0` when `long_context` is
off; when on, it equals `(selected input price − base input price) ×
input_tokens/1e6`, and it is strictly positive for a model that defines a
long-context input price when input tokens are positive; and the final
cost is always just the (possibly batch-halved) breakdown sum - the
premium is never added to it. -/
theorem calculateCost_longContextPremium :
    ∀ (k : String) (m : ClaudeModel), lookupModel k = some m →
    ∀ (it ot tt : Nat) (uc : Bool) (r : ℚ) (ub : Bool),
      (∀ res, calculateCost k it ot tt uc r ub false = .ok res →
        res.longContextPremium = 0)
    ∧ (∀ res, calculateCost k it ot tt uc r ub true = .ok res →
        res.longContextPremium
          = (selectedInputPrice m true - m.pricing.input) * ((it : ℚ) / 1000000)
        ∧ (m.pricing.longContextInput.isSome = true → 0 < it →
            0 < res.longContextPremium))
    ∧ (∀ (lc : Bool) (res : CostCalculation),
        calculateCost k it ot tt uc r ub lc = .ok res →
          res.finalCost
            = (if ub = true then (1:ℚ)/2 else 1)
              * (res.breakdown.inputCost + res.breakdown.outputCost)) := by
  intro k m h it ot tt uc r ub
  refine ⟨?_, ?_, ?_⟩
  · intro res hres
    rw [calculateCost_ok h] at hres
    cases Except.ok.inj hres
    simp
  · intro res hres
    rw [calculateCost_ok h] at hres
    cases Except.ok.inj hres
    constructor
    · simp
    · intro hsome hit
      have hitq : (0 : ℚ) < (it : ℚ) := by exact_mod_cast hit
      show 0 < (if true = true then
          (selectedInputPrice m true - m.pricing.input) * ((it : ℚ) / 1000000) else 0)
      rw [if_pos rfl]
      rcases model_of_lookup h with rfl | rfl | rfl
      · simp [opus_4_5] at hsome
      · rw [selectedInputPrice_sonnet, sonnet_input_price]
        have h6 : (0 : ℚ) < (it : ℚ) / 1000000 := by positivity
        norm_num
        linarith
      · simp [haiku_4_5] at hsome
  · intro lc res hres
    rw [calculateCost_ok h] at hres
    cases Except.ok.inj hres
    show finalCostAmount m it (ot + tt) uc r ub lc
      = (if ub = true then (1:ℚ)/2 else 1)
        * (inputCostAfterCache m it uc r lc + rawOutputCost m (ot + tt) lc)
    cases ub
    · norm_num [finalCostAmount, baseAfterCache]
      try ring
    · norm_num [finalCostAmount, baseAfterCache]
      try ring

/-- Witness for C6 (`sonnet_4_5`, one million input tokens, long context
on): premium `3 = (6 − 3) × 1 > 0`, final cost `6 = 1 × (6 + 0)` without
the premium. -/
theorem calculateCost_longContextPremium_witness :
    lookupModel "sonnet_4_5" = some sonnet_4_5
  ∧ calculateCost "sonnet_4_5" 1000000 0 0 false (9/10) false true = .ok
      { model := "Claude Sonnet 4.5", inputTokens := 1000000, outputTokens := 0
        thinkingTokens := 0, totalOutputTokens := 0, baseCost := 6, cacheDiscount := 0
        batchDiscount := 0, longContextPremium := 3, finalCost := 6
        breakdown := { inputCost := 6, outputCost := 0 } }
  ∧ (3 : ℚ) = (selectedInputPrice sonnet_4_5 true - sonnet_4_5.pricing.input)
      * ((1000000 : ℚ) / 1000000)
  ∧ sonnet_4_5.pricing.longContextInput.isSome = true
  ∧ 0 < 1000000
  ∧ (0 : ℚ) < 3
  ∧ (6 : ℚ) = 1 * (6 + 0) := by
  have hok : calculateCost "sonnet_4_5" 1000000 0 0 false (9/10) false true = .ok
      { model := "Claude Sonnet 4.5", inputTokens := 1000000, outputTokens := 0
        thinkingTokens := 0, totalOutputTokens := 0, baseCost := 6, cacheDiscount := 0
        batchDiscount := 0, longContextPremium := 3, finalCost := 6
        breakdown := { inputCost := 6, outputCost := 0 } } := by
    rw [calculateCost_ok lookupModel_sonnet]
    norm_num [finalCostAmount, baseAfterCache, inputCostAfterCache, rawInputCost,
      rawOutputCost, batchDiscountAmount, cacheDiscountAmount, selectedInputPrice_sonnet,
      selectedOutputPrice_sonnet, sonnet_name, sonnet_input_price]
  have H := calculateCost_longContextPremium "sonnet_4_5" sonnet_4_5 lookupModel_sonnet
    1000000 0 0 false (9/10) false
  exact ⟨lookupModel_sonnet, hok, (H.2.1 _ hok).1, rfl, by norm_num,
    (H.2.1 _ hok).2 rfl (by norm_num), H.2.2 true _ hok⟩

/-- C10: for a model whose pricing defines neither long-context price
(`opus_4_5` and `haiku_4_5` in the shipped catalogue), requesting
`long_context = true` changes nothing: the call returns output identical
to the `long_context = false` call. -/
theorem calculateCost_no_longcontext_prices :
    ∀ (k : String) (m : ClaudeModel), lookupModel k = some m →
      m.pricing.longContextInput = none → m.pricing.longContextOutput = none →
    ∀ (it ot tt : Nat) (uc : Bool) (r : ℚ) (ub : Bool),
      calculateCost k it ot tt uc r ub true = calculateCost k it ot tt uc r ub false := by
  intro k m h hin hout it ot tt uc r ub
  have h1 : selectedInputPrice m true = selectedInputPrice m false := by
    simp [selectedInputPrice, hin, jsTruthy]
  have h2 : selectedOutputPrice m true = selectedOutputPrice m false := by
    simp [selectedOutputPrice, hout, jsTruthy]
  have h0 : selectedInputPrice m false = m.pricing.input := by
    simp [selectedInputPrice]
  rw [calculateCost_ok h, calculateCost_ok h]
  unfold cacheDiscountAmount finalCostAmount batchDiscountAmount baseAfterCache
    inputCostAfterCache cachedInputCost rawInputCost rawOutputCost
  rw [h1, h2]
  simp [h0]

/-- Witness for C10 at `opus_4_5` with a non-trivial profile. -/
theorem calculateCost_no_longcontext_prices_witness :
    lookupModel "opus_4_5" = some opus_4_5
  ∧ opus_4_5.pricing.longContextInput = none
  ∧ opus_4_5.pricing.longContextOutput = none
  ∧ calculateCost "opus_4_5" 123456 7890 1000 true (1/3) true true
      = calculateCost "opus_4_5" 123456 7890 1000 true (1/3) true false :=
  ⟨lookupModel_opus, rfl, rfl,
    calculateCost_no_longcontext_prices "opus_4_5" opus_4_5 lookupModel_opus rfl rfl
      123456 7890 1000 true (1/3) true⟩

/-- C4 counterexample: `getTokenLimits` on an unknown model key does NOT
return the not-found message - it returns its ordinary payload (the
limits table) with an empty per-model row list. -/
theorem getTokenLimits_unknown_model_counterexample :
    getTokenLimits "gpt_4"
      = { models := [], limits := CONTEXT_LIMITS, thinking := THINKING_CONFIG } := rfl

/-- C4 amended: on a model key absent from the catalogue (and different
from `"all"`), `calculateCost`, `getModelInfo` and `getPricing` return
their descriptive not-found message and never a numeric or tabular
payload, while `getTokenLimits` instead returns its tabular payload with
an empty model list; none of them throws (all are total). -/
theorem unknown_model_lookups_amended :
    ∀ k : String, lookupModel k = none → k ≠ "all" →
      (∀ (it ot tt : Nat) (uc : Bool) (r : ℚ) (ub lc : Bool),
        calculateCost k it ot tt uc r ub lc
          = .error ("Error: Model \x27" ++ k ++ "\x27 not found."))
    ∧ getModelInfo k
        = .error ("Error: Model \x27" ++ k
            ++ "\x27 not found. Available: opus_4_5, sonnet_4_5, haiku_4_5")
    ∧ (∀ incl : Bool, getPricing k incl
        = .error ("Error: Model \x27" ++ k ++ "\x27 not found."))
    ∧ getTokenLimits k
        = { models := [], limits := CONTEXT_LIMITS, thinking := THINKING_CONFIG } := by
  intro k hnone hall
  refine ⟨?_, ?_, ?_, ?_⟩
  · intro it ot tt uc r ub lc
    simp [calculateCost, hnone]
  · simp [getModelInfo, hall, hnone]
  · intro incl
    simp [getPricing, hall, hnone]
  · simp [getTokenLimits, hall, hnone]

/-- Witness for C4's amended claim at the unknown key `"gpt_4"`. -/
theorem unknown_model_lookups_amended_witness :
    lookupModel "gpt_4" = none
  ∧ "gpt_4" ≠ "all"
  ∧ calculateCost "gpt_4" 1 2 3 true (1/2) true true
      = .error "Error: Model \x27gpt_4\x27 not found."
  ∧ getModelInfo "gpt_4"
      = .error "Error: Model \x27gpt_4\x27 not found. Available: opus_4_5, sonnet_4_5, haiku_4_5"
  ∧ getPricing "gpt_4" true = .error "Error: Model \x27gpt_4\x27 not found."
  ∧ getTokenLimits "gpt_4"
      = { models := [], limits := CONTEXT_LIMITS, thinking := THINKING_CONFIG } := by
  have H := unknown_model_lookups_amended "gpt_4" rfl (by decide)
  exact ⟨rfl, by decide, H.1 1 2 3 true (1/2) true true, H.2.1, H.2.2.1 true, H.2.2.2⟩

/-- Inserting into a list by descending relevance leaves each
equal-relevance class in its original order (stability of one insertion
step). -/
theorem filter_rel_orderedInsert (v : ℚ) (a : SearchResult) (l : List SearchResult) :
    (List.orderedInsert relGe a l).filter (fun x => decide (x.relevance = v))
      = ((a :: l).filter (fun x => decide (x.relevance = v))) := by
  induction l with
  | nil => simp [List.orderedInsert]
  | cons b l ih =>
    by_cases hab : relGe a b
    · rw [List.orderedInsert, if_pos hab]
    · rw [List.orderedInsert, if_neg hab]
      have hab' : ¬ (b.relevance ≤ a.relevance) := hab
      have hlt : a.relevance < b.relevance := not_le.mp hab'
      by_cases hb : b.relevance = v
      · have ha : ¬ a.relevance = v := by
          intro ha
          rw [ha, hb] at hlt
          exact lt_irrefl v hlt
        simp [List.filter_cons, hb, ha, ih]
      · simp [List.filter_cons, hb, ih]

/-- Stability of the whole insertion sort: filtering any single relevance
value out of the sorted list returns that class in its original order. -/
theorem filter_rel_insertionSort (v : ℚ) (l : List SearchResult) :
    (List.insertionSort relGe l).filter (fun x => decide (x.relevance = v))
      = l.filter (fun x => decide (x.relevance = v)) := by
  induction l with
  | nil => rfl
  | cons b l ih =>
    rw [List.insertionSort, filter_rel_orderedInsert]
    simp [List.filter_cons, ih]

/-- Every candidate `searchDocs` ever pushes carries one of the four
literal relevance scores `1`, `0.9`, `0.8`, `0.7`. -/
theorem relevance_of_mem_searchCandidates {q : String} {x : SearchResult}
    (hx : x ∈ searchCandidates q) :
    x.relevance = 1 ∨ x.relevance = 0.9 ∨ x.relevance = 0.8 ∨ x.relevance = 0.7 := by
  unfold searchCandidates at hx
  simp only [List.mem_append, List.mem_filterMap] at hx
  rcases hx with ((⟨kv, _, hkv⟩ | hx) | hx) | hx
  · unfold modelSearchHit at hkv
    split at hkv
    · cases Option.some.inj hkv
      split_ifs <;> simp
    · exact absurd hkv (by simp)
  · split at hx
    · rw [List.mem_singleton.mp hx]
      norm_num
    · exact absurd hx (by simp)
  · split at hx
    · rw [List.mem_singleton.mp hx]
      norm_num
    · exact absurd hx (by simp)
  · split at hx
    · rw [List.mem_singleton.mp hx]
      norm_num
    · exact absurd hx (by simp)

/-- C8: the code's search behaviour on the spec's two distinguished
queries.  The query `"zz"` (two characters, matching nothing) returns the
empty result set with the explicit `"No results found"` indicator in both
output formats, exactly as claimed.  But the query `"pricing"` ALSO
returns the no-results outputs: the pricing topic matches on the keywords
`"price"`, `"cost"`, `"token"`, `"$"`, and the string `"pricing"`
(p-r-i-c-i-n-g) contains none of them - even though the code's own
no-results message suggests searching for `"pricing"`. -/
theorem searchDocs_pricing_behavior :
    searchResultsSorted "pricing" = []
  ∧ searchDocsJson "pricing"
      = { query := "pricing", results := [], message := some "No results found" }
  ∧ searchDocsMarkdown "pricing"
      = .noResults "pricing"
          "Try searching for: models, pricing, tokens, thinking, beta headers"
  ∧ searchResultsSorted "zz" = []
  ∧ searchDocsJson "zz"
      = { query := "zz", results := [], message := some "No results found" }
  ∧ searchDocsMarkdown "zz"
      = .noResults "zz"
          "Try searching for: models, pricing, tokens, thinking, beta headers" :=
  ⟨rfl, rfl, rfl, rfl, rfl, rfl⟩

/-- C9: for every query, the result list is sorted by relevance descending
(`List.Sorted relGe`), the sort is stable (each equal-relevance class is
returned in the original catalogue/group push order), every relevance
score lies in `(0, 1]`, the markdown view shows at most the top 3 results
(a prefix of the sorted list), and the JSON view returns all matches. -/
theorem searchDocs_ranking :
    ∀ q : String,
      List.Sorted relGe (searchResultsSorted q)
    ∧ (∀ v : ℚ,
        (searchResultsSorted q).filter (fun x => decide (x.relevance = v))
          = (searchCandidates q).filter (fun x => decide (x.relevance = v)))
    ∧ (∀ x ∈ searchResultsSorted q, 0 < x.relevance ∧ x.relevance ≤ 1)
    ∧ (∀ (found : Nat) (shown : List SearchResult),
        searchDocsMarkdown q = .results q found shown →
          shown = (searchResultsSorted q).take 3 ∧ shown.length ≤ 3)
    ∧ (searchDocsJson q).results = searchResultsSorted q := by
  intro q
  refine ⟨List.sorted_insertionSort relGe _, fun v => filter_rel_insertionSort v _, ?_, ?_, ?_⟩
  · intro x hx
    have hx' : x ∈ searchCandidates q :=
      (List.perm_insertionSort relGe (searchCandidates q)).mem_iff.mp hx
    rcases relevance_of_mem_searchCandidates hx' with h | h | h | h <;> rw [h] <;> norm_num
  · intro found shown hmd
    simp only [searchDocsMarkdown] at hmd
    split at hmd
    · exact absurd hmd (by simp)
    · injection hmd with _ hfound hshown
      refine ⟨hshown.symm, ?_⟩
      rw [← hshown, List.length_take]
      omega
  · simp only [searchDocsJson]
    split
    · next hlen => simp [List.length_eq_zero.mp hlen]
    · rfl

/-- Witness for C9 at the query `"tokens"`, whose sorted result list is
the single pricing topic entry with relevance `0.9`. -/
theorem searchDocs_ranking_witness :
    ({ sectionLabel := "Pricing", content := .pricingDoc, relevance := 0.9 } : SearchResult)
        ∈ searchResultsSorted "tokens"
  ∧ ((0 : ℚ) < 0.9 ∧ (0.9 : ℚ) ≤ 1)
  ∧ searchDocsMarkdown "tokens"
      = .results "tokens" 1
          [{ sectionLabel := "Pricing", content := .pricingDoc, relevance := 0.9 }]
  ∧ [({ sectionLabel := "Pricing", content := .pricingDoc, relevance := 0.9 } : SearchResult)]
      = (searchResultsSorted "tokens").take 3
  ∧ [({ sectionLabel := "Pricing", content := .pricingDoc, relevance := 0.9 } : SearchResult)].length
      ≤ 3 := by
  have hmem : ({ sectionLabel := "Pricing", content := .pricingDoc, relevance := 0.9 }
      : SearchResult) ∈ searchResultsSorted "tokens" := by
    show ({ sectionLabel := "Pricing", content := .pricingDoc, relevance := 0.9 }
      : SearchResult) ∈
        [({ sectionLabel := "Pricing", content := .pricingDoc, relevance := 0.9 }
          : SearchResult)]
    exact List.mem_singleton.mpr rfl
  have hmd : searchDocsMarkdown "tokens"
      = .results "tokens" 1
          [{ sectionLabel := "Pricing", content := .pricingDoc, relevance := 0.9 }] := rfl
  have H := searchDocs_ranking "tokens"
  exact ⟨hmem, H.2.2.1 _ hmem, hmd, (H.2.2.2.1 1 _ hmd).1, (H.2.2.2.1 1 _ hmd).2⟩
